import Mathlib

/-!
Verification of the STL-viewer mesh pipeline.

Shallow embedding of the mesh-ingestion/normalization pipeline of
`src/model_loader.cpp` and the buffer/transform pipeline of
`src/viewer.cpp`.  Machine `float` values are modelled as rationals;
`glm::vec3` becomes `Vec3`, `glm::mat4` becomes `Mat4` with glm's
column-major, right-multiplying `scale`/`translate` helpers.
-/

/-- Rational model of `glm::vec3`. -/
structure Vec3 where
  x : ℚ
  y : ℚ
  z : ℚ
deriving DecidableEq

def vadd (a b : Vec3) : Vec3 := ⟨a.x + b.x, a.y + b.y, a.z + b.z⟩

def vsub (a b : Vec3) : Vec3 := ⟨a.x - b.x, a.y - b.y, a.z - b.z⟩

def vneg (a : Vec3) : Vec3 := ⟨-a.x, -a.y, -a.z⟩

def smul (s : ℚ) (a : Vec3) : Vec3 := ⟨s * a.x, s * a.y, s * a.z⟩

def dotQ (a b : Vec3) : ℚ := a.x * b.x + a.y * b.y + a.z * b.z

def crossQ (a b : Vec3) : Vec3 :=
  ⟨a.y * b.z - a.z * b.y, a.z * b.x - a.x * b.z, a.x * b.y - a.y * b.x⟩

/-- Embeds `ModelTriangle` from `model_loader.h`: face normal plus three vertices. -/
structure ModelTriangle where
  normal : Vec3
  v0 : Vec3
  v1 : Vec3
  v2 : Vec3
deriving DecidableEq

/-- The three vertices of a triangle, in array order (`vertices[0..2]`). -/
def triVerts (t : ModelTriangle) : List Vec3 := [t.v0, t.v1, t.v2]

/-- Embeds `ModelMesh` from `model_loader.h`: triangle list plus derived fields. -/
structure ModelMesh where
  triangles : List ModelTriangle
  min_bounds : Vec3
  max_bounds : Vec3
  center : Vec3
  scale : ℚ
deriving DecidableEq

/-- Embeds `CENTER_CALCULATION_FACTOR = 0.5f` from `model_loader.cpp`. -/
def CENTER_CALCULATION_FACTOR : ℚ := 1 / 2

/-- Embeds `DEFAULT_SCALE = 1.0f` from `model_loader.cpp`. -/
def DEFAULT_SCALE : ℚ := 1

/-- Embeds `EPSILON = 1e-6f` from `model_loader.cpp`. -/
def EPSILON : ℚ := 1 / 1000000

/-- Every vertex of every triangle, in the traversal order of
`ModelLoader::calculateBounds` (outer loop over triangles, inner loop
over the three vertices). -/
def meshAllVertices : List ModelTriangle → List Vec3
  | [] => []
  | t :: ts => triVerts t ++ meshAllVertices ts

/-- One inner-loop step of `ModelLoader::calculateBounds`: update the six
min/max scalars against one vertex. -/
def expandBounds (b : Vec3 × Vec3) (v : Vec3) : Vec3 × Vec3 :=
  (⟨min b.1.x v.x, min b.1.y v.y, min b.1.z v.z⟩,
   ⟨max b.2.x v.x, max b.2.y v.y, max b.2.z v.z⟩)

/-- Embeds `triangles[0].vertices[0]`, the value both bounds start from in
`ModelLoader::calculateBounds` (only read when the list is non-empty). -/
def boundsInit (l : List ModelTriangle) : Vec3 :=
  match l with
  | [] => ⟨0, 0, 0⟩
  | t :: _ => t.v0

/-- Embeds `ModelLoader::calculateBounds`: early return on an empty triangle
list, otherwise initialize both bounds to `triangles[0].vertices[0]` and
expand across every vertex of every triangle. -/
def calculateBounds (mesh : ModelMesh) : ModelMesh :=
  if mesh.triangles = [] then mesh
  else
    let i := boundsInit mesh.triangles
    let b := (meshAllVertices mesh.triangles).foldl expandBounds (i, i)
    { mesh with min_bounds := b.1, max_bounds := b.2 }

/-- Embeds `size = max_bounds - min_bounds; std::max({size.x, size.y, size.z})`,
the expression shared by `ModelLoader::calculateCenterAndScale` and
`STLViewer::updateModelMatrix`. -/
def maxDimension (mesh : ModelMesh) : ℚ :=
  let size := vsub mesh.max_bounds mesh.min_bounds
  max (max size.x size.y) size.z

/-- Embeds `ModelLoader::calculateCenterAndScale`: early return on an empty
triangle list; center is the bounds midpoint; scale is `1/maxSize` when
`maxSize > EPSILON`, else `DEFAULT_SCALE`. -/
def calculateCenterAndScale (mesh : ModelMesh) : ModelMesh :=
  if mesh.triangles = [] then mesh
  else
    let center := smul CENTER_CALCULATION_FACTOR (vadd mesh.min_bounds mesh.max_bounds)
    let maxSize := maxDimension mesh
    let scale := if EPSILON < maxSize then DEFAULT_SCALE / maxSize else DEFAULT_SCALE
    { mesh with center := center, scale := scale }

/-- The normalization pass run at the end of `ModelLoader::loadFile`:
`calculateBounds` followed by `calculateCenterAndScale`. -/
def normalizeMesh (mesh : ModelMesh) : ModelMesh :=
  calculateCenterAndScale (calculateBounds mesh)

/-- Modelled slice of Assimp's `aiMesh`: positions, per-vertex normals
(an empty list models `HasNormals() == false`), faces as index lists. -/
structure AiMesh where
  vertices : List Vec3
  normals : List Vec3
  faces : List (List Nat)
deriving DecidableEq

/-- Modelled slice of Assimp's `aiScene`: its meshes (an empty list
models `HasMeshes() == false`). -/
structure AiScene where
  meshes : List AiMesh
deriving DecidableEq

/-- Embeds `ModelLoader::setError`: joins message and non-empty context. -/
def setErrorStr (message context : String) : String :=
  if context = "" then message else message ++ ": " ++ context

/-- Embeds `glm::normalize` on the rational embedding: division by the Euclidean
norm.  The square root is irrational in general, so it is a parameter
`sf` of the embedding; no settled claim depends on its value. -/
def glmNormalize (sf : ℚ → ℚ) (v : Vec3) : Vec3 :=
  smul (1 / sf (dotQ v v)) v

/-- Embeds `ModelLoader::createTriangle`: checks the three indices in order and
fails at the first one `≥ mNumVertices`; the normal is taken from
`mNormals[face.mIndices[0]]` when normals are present, otherwise it is
the normalized cross product of the two edge vectors.  The catch-all
branch is unreachable: the caller only passes faces with exactly three
indices (`face.mNumIndices == TRIANGLE_VERTICES`). -/
def createTriangle (sf : ℚ → ℚ) (face : List Nat) (am : AiMesh) :
    Except String ModelTriangle :=
  match face with
  | [i0, i1, i2] =>
    if i0 < am.vertices.length then
      if i1 < am.vertices.length then
        if i2 < am.vertices.length then
          let p0 := am.vertices.getD i0 ⟨0, 0, 0⟩
          let p1 := am.vertices.getD i1 ⟨0, 0, 0⟩
          let p2 := am.vertices.getD i2 ⟨0, 0, 0⟩
          let normal :=
            if am.normals = [] then
              glmNormalize sf (crossQ (vsub p1 p0) (vsub p2 p0))
            else am.normals.getD i0 ⟨0, 0, 0⟩
          Except.ok ⟨normal, p0, p1, p2⟩
        else Except.error (setErrorStr "Invalid vertex index in face data" ("Index: " ++ toString i2))
      else Except.error (setErrorStr "Invalid vertex index in face data" ("Index: " ++ toString i1))
    else Except.error (setErrorStr "Invalid vertex index in face data" ("Index: " ++ toString i0))
  | _ => Except.error ""

/-- The face loop of `ModelLoader::processMesh`: faces with exactly three
indices become triangles pushed onto the mesh; other faces are skipped;
a `createTriangle` failure returns `false` immediately, keeping the
triangles accumulated so far. -/
def processFaces (sf : ℚ → ℚ) (am : AiMesh) :
    List (List Nat) → ModelMesh → String → Bool × ModelMesh × String
  | [], mesh, err => (true, mesh, err)
  | f :: fs, mesh, err =>
    if f.length = 3 then
      match createTriangle sf f am with
      | Except.ok tri =>
        processFaces sf am fs { mesh with triangles := mesh.triangles ++ [tri] } err
      | Except.error e => (false, mesh, e)
    else processFaces sf am fs mesh err

/-- Embeds `ModelLoader::processMesh`: rejects meshes without faces or without
vertex positions, then runs the face loop. -/
def processMesh (sf : ℚ → ℚ) (am : AiMesh) (mesh : ModelMesh) (err : String) :
    Bool × ModelMesh × String :=
  if am.faces = [] then
    (false, mesh, setErrorStr "Mesh does not contain face data"
      ("Mesh index: " ++ toString (mesh.triangles.length / 1000)))
  else if am.vertices = [] then
    (false, mesh, setErrorStr "Mesh does not contain vertex position data"
      ("Mesh index: " ++ toString (mesh.triangles.length / 1000)))
  else processFaces sf am am.faces mesh err

/-- Embeds `ModelLoader::processScene`: `std::all_of` over the scene's meshes,
in order, short-circuiting at the first failing mesh. -/
def processScene (sf : ℚ → ℚ) :
    List AiMesh → ModelMesh → String → Bool × ModelMesh × String
  | [], mesh, err => (true, mesh, err)
  | am :: rest, mesh, err =>
    match processMesh sf am mesh err with
    | (true, mesh1, err1) => processScene sf rest mesh1 err1
    | (false, mesh1, err1) => (false, mesh1, err1)

/-- Result of one `ModelLoader::loadFile` call: the returned `bool`, the
loader's `errorMessage` member after the call, and the caller's mesh
(passed by reference) after the call. -/
structure LoadResult where
  ok : Bool
  errorMessage : String
  mesh : ModelMesh
deriving DecidableEq

/-- Embeds `ModelLoader::loadFile`.  `readResult` models the outcome of
`Assimp::Importer::ReadFile` (the backend is external to the repo):
`Except.error` carries `GetErrorString()`.  The member `errorMessage`
is cleared on entry, so `prevError` is dead.  The pipeline:
scene validation (`HasMeshes`), `processScene`, result validation
(non-empty triangle list), then `calculateBounds` and
`calculateCenterAndScale`. -/
def loadFile (sf : ℚ → ℚ) (readResult : Except String AiScene)
    (prevError : String) (mesh : ModelMesh) : LoadResult :=
  let _ := prevError
  match readResult with
  | Except.error backendError =>
    ⟨false, setErrorStr "Failed to load 3D model" backendError, mesh⟩
  | Except.ok scene =>
    if scene.meshes = [] then
      ⟨false, setErrorStr "No mesh data found in the file"
        "File might be empty or corrupted", mesh⟩
    else
      match processScene sf scene.meshes mesh "" with
      | (false, mesh1, err1) => ⟨false, err1, mesh1⟩
      | (true, mesh1, err1) =>
        if mesh1.triangles = [] then
          ⟨false, setErrorStr "No triangle data could be extracted from the file"
            "Model might contain only points/lines or unsupported geometry", mesh1⟩
        else ⟨true, err1, calculateCenterAndScale (calculateBounds mesh1)⟩

/-- Embeds `ModelLoader::getErrorMessage` observed after a `loadFile` call:
the `errorMessage` member it returns. -/
def getErrorMessage (r : LoadResult) : String := r.errorMessage

/-- Embeds `MODEL_COLOR_R = 0.8f` from `viewer.cpp` (renamed: a name opening with `[MOD` collides with a notation token). -/
def modelColorR : ℚ := 4 / 5

/-- Embeds `MODEL_COLOR_G = 0.8f` from `viewer.cpp`. -/
def modelColorG : ℚ := 4 / 5

/-- Embeds `MODEL_COLOR_B = 0.8f` from `viewer.cpp`. -/
def modelColorB : ℚ := 4 / 5

/-- Embeds `AXIS_LENGTH = 2.0f` from `viewer.cpp`. -/
def AXIS_LENGTH : ℚ := 2

/-- Embeds `MODEL_DESIRED_SIZE = 1.5f` from `viewer.cpp`. -/
def MODEL_DESIRED_SIZE : ℚ := 3 / 2

/-- The nine floats `STLViewer::convertSTLToVertices` emits for one
vertex: position, constant model color, the triangle's normal. -/
def vertexData (t : ModelTriangle) (v : Vec3) : List ℚ :=
  [v.x, v.y, v.z, modelColorR, modelColorG, modelColorB,
   t.normal.x, t.normal.y, t.normal.z]

/-- The 27 floats one triangle contributes, vertex by vertex. -/
def triangleVertexData (t : ModelTriangle) : List ℚ :=
  vertexData t t.v0 ++ vertexData t t.v1 ++ vertexData t t.v2

/-- The triangle loop of `STLViewer::convertSTLToVertices`. -/
def trianglesVertexData : List ModelTriangle → List ℚ
  | [] => []
  | t :: ts => triangleVertexData t ++ trianglesVertexData ts

/-- Embeds `STLViewer::convertSTLToVertices`: the interleaved model vertex
buffer built from the member mesh. -/
def convertSTLToVertices (mesh : ModelMesh) : List ℚ :=
  trianglesVertexData mesh.triangles

/-- Embeds `STLViewer::createAxesVertices`: the fixed axes-gizmo buffer, six
vertices of nine floats (position, color, normal). -/
def createAxesVertices : List ℚ :=
  [0, 0, 0, 1, 0, 0, 0, 0, 1,
   AXIS_LENGTH, 0, 0, 1, 0, 0, 0, 0, 1,
   0, 0, 0, 0, 1, 0, 0, 0, 1,
   0, AXIS_LENGTH, 0, 0, 1, 0, 0, 0, 1,
   0, 0, 0, 0, 0, 1, 0, 0, 1,
   0, 0, AXIS_LENGTH, 0, 0, 1, 0, 0, 1]

/-- Rational model of `glm::vec4`. -/
structure Vec4 where
  x : ℚ
  y : ℚ
  z : ℚ
  w : ℚ
deriving DecidableEq

def v4add (a b : Vec4) : Vec4 := ⟨a.x + b.x, a.y + b.y, a.z + b.z, a.w + b.w⟩

def v4smul (s : ℚ) (a : Vec4) : Vec4 := ⟨s * a.x, s * a.y, s * a.z, s * a.w⟩

/-- Rational model of `glm::mat4`, as its four columns. -/
structure Mat4 where
  c0 : Vec4
  c1 : Vec4
  c2 : Vec4
  c3 : Vec4
deriving DecidableEq

/-- Embeds `glm::mat4{1.0f}`. -/
def mat4Identity : Mat4 :=
  ⟨⟨1, 0, 0, 0⟩, ⟨0, 1, 0, 0⟩, ⟨0, 0, 1, 0⟩, ⟨0, 0, 0, 1⟩⟩

/-- Embeds `glm::scale(m, v)`: returns `m * S(v)`, i.e. the first three columns
of `m` scaled by the components of `v`. -/
def glmScale (m : Mat4) (v : Vec3) : Mat4 :=
  ⟨v4smul v.x m.c0, v4smul v.y m.c1, v4smul v.z m.c2, m.c3⟩

/-- Embeds `glm::translate(m, v)`: returns `m * T(v)`, i.e. `m` with last
column `m.c0*v.x + m.c1*v.y + m.c2*v.z + m.c3`. -/
def glmTranslate (m : Mat4) (v : Vec3) : Mat4 :=
  ⟨m.c0, m.c1, m.c2,
   v4add (v4add (v4add (v4smul v.x m.c0) (v4smul v.y m.c1)) (v4smul v.z m.c2)) m.c3⟩

/-- Embeds `m * vec4(p, 1)`, projected back to xyz: how the vertex shader
applies the model matrix to a mesh vertex. -/
def applyToPoint (m : Mat4) (p : Vec3) : Vec3 :=
  let r := v4add (v4add (v4add (v4smul p.x m.c0) (v4smul p.y m.c1)) (v4smul p.z m.c2)) m.c3
  ⟨r.x, r.y, r.z⟩

/-- The scale factor `STLViewer::updateModelMatrix` derives each frame:
`MODEL_DESIRED_SIZE / maxDimension`, with no epsilon guard. -/
def viewerScale (mesh : ModelMesh) : ℚ :=
  MODEL_DESIRED_SIZE / maxDimension mesh

/-- Embeds `STLViewer::updateModelMatrix`: starts from the identity, applies
`glm::scale`, then `glm::translate` by `-mesh.center * scale`. -/
def updateModelMatrix (mesh : ModelMesh) : Mat4 :=
  let scale := viewerScale mesh
  glmTranslate (glmScale mat4Identity ⟨scale, scale, scale⟩) (smul scale (vneg mesh.center))

/-- The model-matrix action the spec describes (refinement reference,
written from the spec's words, not from the source): the final mesh
coordinate is `(vertex - center) * scale`. -/
def specModelMap (center : Vec3) (scale : ℚ) (v : Vec3) : Vec3 :=
  smul scale (vsub v center)

/-- Shared concrete origin vector for test fixtures. -/
def zeroVec : Vec3 := ⟨0, 0, 0⟩

/-- A non-degenerate sample triangle (extent 1 in x and y). -/
def sampleTriangle : ModelTriangle := ⟨⟨0, 0, 1⟩, ⟨0, 0, 0⟩, ⟨1, 0, 0⟩, ⟨0, 1, 0⟩⟩

/-- A freshly loaded one-triangle mesh before normalization. -/
def sampleBaseMesh : ModelMesh := ⟨[sampleTriangle], zeroVec, zeroVec, zeroVec, 1⟩

/-- A degenerate triangle: all three vertices coincide at (5,5,5). -/
def degenerateTriangle : ModelTriangle := ⟨⟨0, 0, 1⟩, ⟨5, 5, 5⟩, ⟨5, 5, 5⟩, ⟨5, 5, 5⟩⟩

/-- A one-point mesh before normalization (zero-extent bounding box). -/
def degenerateBaseMesh : ModelMesh := ⟨[degenerateTriangle], zeroVec, zeroVec, zeroVec, 1⟩

/-- The degenerate mesh after the loader's normalization pass. -/
def degenerateMesh : ModelMesh := normalizeMesh degenerateBaseMesh

/-- Triangle with bounding box `[0,3]^3`, so center `(1.5,1.5,1.5)` and
viewer scale `1.5 / 3 = 1/2`. -/
def offCenterTriangle : ModelTriangle := ⟨⟨0, 0, 1⟩, ⟨0, 0, 0⟩, ⟨3, 3, 0⟩, ⟨0, 0, 3⟩⟩

/-- The off-center mesh after the loader's normalization pass. -/
def offCenterMesh : ModelMesh := normalizeMesh ⟨[offCenterTriangle], zeroVec, zeroVec, zeroVec, 1⟩

/-- A mesh whose caller-side output starts empty. -/
def freshMesh : ModelMesh := ⟨[], zeroVec, zeroVec, zeroVec, 1⟩

/-- Scene whose second face references vertex index 5 with only 3
vertices present: the first face is valid, the second is not. -/
def badIndexScene : AiScene :=
  ⟨[⟨[⟨0, 0, 0⟩, ⟨1, 0, 0⟩, ⟨0, 1, 0⟩], [⟨0, 0, 1⟩, ⟨0, 0, 1⟩, ⟨0, 0, 1⟩],
     [[0, 1, 2], [0, 1, 5]]⟩]⟩

/-- Scene with one mesh carrying no faces at all. -/
def facelessScene : AiScene := ⟨[⟨[], [], []⟩]⟩

/-- A fully valid one-triangle scene. -/
def goodScene : AiScene :=
  ⟨[⟨[⟨0, 0, 0⟩, ⟨1, 0, 0⟩, ⟨0, 1, 0⟩], [⟨0, 0, 1⟩, ⟨0, 0, 1⟩, ⟨0, 0, 1⟩],
     [[0, 1, 2]]⟩]⟩

/-- The property claimed of a normalized mesh: the stored bounds are
attained component-wise extrema over all triangle vertices, and the
stored center is exactly the bounds midpoint. -/
def boundsCenterSpec (n : ModelMesh) : Prop :=
  (∀ t ∈ n.triangles, ∀ v ∈ triVerts t,
    (n.min_bounds.x ≤ v.x ∧ n.min_bounds.y ≤ v.y ∧ n.min_bounds.z ≤ v.z) ∧
    (v.x ≤ n.max_bounds.x ∧ v.y ≤ n.max_bounds.y ∧ v.z ≤ n.max_bounds.z)) ∧
  ((∃ t ∈ n.triangles, ∃ v ∈ triVerts t, v.x = n.min_bounds.x) ∧
   (∃ t ∈ n.triangles, ∃ v ∈ triVerts t, v.y = n.min_bounds.y) ∧
   (∃ t ∈ n.triangles, ∃ v ∈ triVerts t, v.z = n.min_bounds.z) ∧
   (∃ t ∈ n.triangles, ∃ v ∈ triVerts t, v.x = n.max_bounds.x) ∧
   (∃ t ∈ n.triangles, ∃ v ∈ triVerts t, v.y = n.max_bounds.y) ∧
   (∃ t ∈ n.triangles, ∃ v ∈ triVerts t, v.z = n.max_bounds.z)) ∧
  (n.center.x = (n.min_bounds.x + n.max_bounds.x) / 2 ∧
   n.center.y = (n.min_bounds.y + n.max_bounds.y) / 2 ∧
   n.center.z = (n.min_bounds.z + n.max_bounds.z) / 2)

lemma foldl_min_le_init (l : List ℚ) (a : ℚ) : l.foldl min a ≤ a := by
  induction l generalizing a with
  | nil => exact le_refl a
  | cons x xs ih => exact le_trans (ih (min a x)) (min_le_left a x)

lemma le_foldl_max_init (l : List ℚ) (a : ℚ) : a ≤ l.foldl max a := by
  induction l generalizing a with
  | nil => exact le_refl a
  | cons x xs ih => exact le_trans (le_max_left a x) (ih (max a x))

lemma foldl_min_le_of_mem {x : ℚ} {l : List ℚ} (h : x ∈ l) (a : ℚ) :
    l.foldl min a ≤ x := by
  induction l generalizing a with
  | nil => cases h
  | cons y ys ih =>
    rcases List.mem_cons.mp h with rfl | hy
    · exact le_trans (foldl_min_le_init ys (min a x)) (min_le_right a x)
    · exact ih hy (min a y)

lemma foldl_min_attained (l : List ℚ) (a : ℚ) :
    l.foldl min a = a ∨ l.foldl min a ∈ l := by
  induction l generalizing a with
  | nil => exact Or.inl rfl
  | cons x xs ih =>
    rcases ih (min a x) with h | h
    · rcases min_choice a x with h2 | h2
      · exact Or.inl (by rw [List.foldl_cons, h, h2])
      · exact Or.inr (by rw [List.foldl_cons, h, h2]; exact List.mem_cons_self x xs)
    · exact Or.inr (List.mem_cons_of_mem x h)

lemma le_foldl_max_of_mem {x : ℚ} {l : List ℚ} (h : x ∈ l) (a : ℚ) :
    x ≤ l.foldl max a := by
  induction l generalizing a with
  | nil => cases h
  | cons y ys ih =>
    rcases List.mem_cons.mp h with rfl | hy
    · exact le_trans (le_max_right a x) (le_foldl_max_init ys (max a x))
    · exact ih hy (max a y)

lemma foldl_max_attained (l : List ℚ) (a : ℚ) :
    l.foldl max a = a ∨ l.foldl max a ∈ l := by
  induction l generalizing a with
  | nil => exact Or.inl rfl
  | cons x xs ih =>
    rcases ih (max a x) with h | h
    · rcases max_choice a x with h2 | h2
      · exact Or.inl (by rw [List.foldl_cons, h, h2])
      · exact Or.inr (by rw [List.foldl_cons, h, h2]; exact List.mem_cons_self x xs)
    · exact Or.inr (List.mem_cons_of_mem x h)

lemma foldl_expandBounds_fst_x (l : List Vec3) (p : Vec3 × Vec3) :
    ((l.foldl expandBounds p).1).x = (l.map Vec3.x).foldl min p.1.x := by
  induction l generalizing p with
  | nil => rfl
  | cons v vs ih =>
    simp only [List.foldl_cons, List.map_cons]
    rw [ih (expandBounds p v)]
    rfl

lemma foldl_expandBounds_fst_y (l : List Vec3) (p : Vec3 × Vec3) :
    ((l.foldl expandBounds p).1).y = (l.map Vec3.y).foldl min p.1.y := by
  induction l generalizing p with
  | nil => rfl
  | cons v vs ih =>
    simp only [List.foldl_cons, List.map_cons]
    rw [ih (expandBounds p v)]
    rfl

lemma foldl_expandBounds_fst_z (l : List Vec3) (p : Vec3 × Vec3) :
    ((l.foldl expandBounds p).1).z = (l.map Vec3.z).foldl min p.1.z := by
  induction l generalizing p with
  | nil => rfl
  | cons v vs ih =>
    simp only [List.foldl_cons, List.map_cons]
    rw [ih (expandBounds p v)]
    rfl

lemma foldl_expandBounds_snd_x (l : List Vec3) (p : Vec3 × Vec3) :
    ((l.foldl expandBounds p).2).x = (l.map Vec3.x).foldl max p.2.x := by
  induction l generalizing p with
  | nil => rfl
  | cons v vs ih =>
    simp only [List.foldl_cons, List.map_cons]
    rw [ih (expandBounds p v)]
    rfl

lemma foldl_expandBounds_snd_y (l : List Vec3) (p : Vec3 × Vec3) :
    ((l.foldl expandBounds p).2).y = (l.map Vec3.y).foldl max p.2.y := by
  induction l generalizing p with
  | nil => rfl
  | cons v vs ih =>
    simp only [List.foldl_cons, List.map_cons]
    rw [ih (expandBounds p v)]
    rfl

lemma foldl_expandBounds_snd_z (l : List Vec3) (p : Vec3 × Vec3) :
    ((l.foldl expandBounds p).2).z = (l.map Vec3.z).foldl max p.2.z := by
  induction l generalizing p with
  | nil => rfl
  | cons v vs ih =>
    simp only [List.foldl_cons, List.map_cons]
    rw [ih (expandBounds p v)]
    rfl

lemma mem_meshAllVertices {v : Vec3} :
    ∀ {l : List ModelTriangle}, v ∈ meshAllVertices l ↔ ∃ t ∈ l, v ∈ triVerts t := by
  intro l
  induction l with
  | nil => simp [meshAllVertices]
  | cons t ts ih =>
    simp only [meshAllVertices, List.mem_append, ih, List.mem_cons]
    constructor
    · rintro (hv | ⟨t1, ht1, hv1⟩)
      · exact ⟨t, Or.inl rfl, hv⟩
      · exact ⟨t1, Or.inr ht1, hv1⟩
    · rintro ⟨t1, ht1 | ht1, hv1⟩
      · exact Or.inl (ht1 ▸ hv1)
      · exact Or.inr ⟨t1, ht1, hv1⟩

lemma calculateBounds_triangles (m : ModelMesh) :
    (calculateBounds m).triangles = m.triangles := by
  unfold calculateBounds
  split <;> rfl

lemma calculateCenterAndScale_triangles (m : ModelMesh) :
    (calculateCenterAndScale m).triangles = m.triangles := by
  unfold calculateCenterAndScale
  split <;> rfl

lemma calculateCenterAndScale_min_bounds (m : ModelMesh) :
    (calculateCenterAndScale m).min_bounds = m.min_bounds := by
  unfold calculateCenterAndScale
  split <;> rfl

lemma calculateCenterAndScale_max_bounds (m : ModelMesh) :
    (calculateCenterAndScale m).max_bounds = m.max_bounds := by
  unfold calculateCenterAndScale
  split <;> rfl

lemma calculateBounds_min_eq (m : ModelMesh) (t0 : ModelTriangle)
    (ts : List ModelTriangle) (htr : m.triangles = t0 :: ts) :
    (calculateBounds m).min_bounds =
      ((meshAllVertices (t0 :: ts)).foldl expandBounds (t0.v0, t0.v0)).1 := by
  simp [calculateBounds, htr, boundsInit]

lemma calculateBounds_max_eq (m : ModelMesh) (t0 : ModelTriangle)
    (ts : List ModelTriangle) (htr : m.triangles = t0 :: ts) :
    (calculateBounds m).max_bounds =
      ((meshAllVertices (t0 :: ts)).foldl expandBounds (t0.v0, t0.v0)).2 := by
  simp [calculateBounds, htr, boundsInit]

lemma calculateCenterAndScale_center (m : ModelMesh) (h : m.triangles ≠ []) :
    (calculateCenterAndScale m).center =
      smul CENTER_CALCULATION_FACTOR (vadd m.min_bounds m.max_bounds) := by
  simp [calculateCenterAndScale, h]

lemma calculateCenterAndScale_scale (m : ModelMesh) (h : m.triangles ≠ []) :
    (calculateCenterAndScale m).scale =
      if EPSILON < maxDimension m then DEFAULT_SCALE / maxDimension m
      else DEFAULT_SCALE := by
  simp [calculateCenterAndScale, h]

lemma maxDimension_calculateCenterAndScale (m : ModelMesh) :
    maxDimension (calculateCenterAndScale m) = maxDimension m := by
  unfold maxDimension
  rw [calculateCenterAndScale_min_bounds, calculateCenterAndScale_max_bounds]

/-- C3: for every mesh with at least one triangle, after normalization
`min_bounds` and `max_bounds` are the attained component-wise extrema
over all vertices of all triangles, and `center` equals
`(min_bounds + max_bounds) / 2` exactly. -/
theorem c3_bounds_extrema_center (m : ModelMesh) (h : m.triangles ≠ []) :
    boundsCenterSpec (normalizeMesh m) := by
  obtain ⟨t0, ts, htr⟩ := List.exists_cons_of_ne_nil h
  have htri : (normalizeMesh m).triangles = t0 :: ts := by
    rw [normalizeMesh, calculateCenterAndScale_triangles, calculateBounds_triangles, htr]
  have hmin : (normalizeMesh m).min_bounds =
      ((meshAllVertices (t0 :: ts)).foldl expandBounds (t0.v0, t0.v0)).1 := by
    rw [normalizeMesh, calculateCenterAndScale_min_bounds, calculateBounds_min_eq m t0 ts htr]
  have hmax : (normalizeMesh m).max_bounds =
      ((meshAllVertices (t0 :: ts)).foldl expandBounds (t0.v0, t0.v0)).2 := by
    rw [normalizeMesh, calculateCenterAndScale_max_bounds, calculateBounds_max_eq m t0 ts htr]
  have hb2 : (calculateBounds m).triangles ≠ [] := by
    rw [calculateBounds_triangles]; exact h
  have hctr : (normalizeMesh m).center =
      smul CENTER_CALCULATION_FACTOR
        (vadd (normalizeMesh m).min_bounds (normalizeMesh m).max_bounds) := by
    rw [normalizeMesh, calculateCenterAndScale_center _ hb2,
      calculateCenterAndScale_min_bounds, calculateCenterAndScale_max_bounds]
  have ht0 : t0 ∈ (normalizeMesh m).triangles := by rw [htri]; exact List.mem_cons_self t0 ts
  have hv00 : t0.v0 ∈ triVerts t0 := by simp [triVerts]
  refine ⟨?_, ⟨?_, ?_, ?_, ?_, ?_, ?_⟩, ?_⟩
  · intro t ht v hv
    rw [htri] at ht
    have hvm : v ∈ meshAllVertices (t0 :: ts) := mem_meshAllVertices.mpr ⟨t, ht, hv⟩
    refine ⟨⟨?_, ?_, ?_⟩, ?_, ?_, ?_⟩
    · rw [hmin, foldl_expandBounds_fst_x]
      exact foldl_min_le_of_mem (List.mem_map_of_mem Vec3.x hvm) _
    · rw [hmin, foldl_expandBounds_fst_y]
      exact foldl_min_le_of_mem (List.mem_map_of_mem Vec3.y hvm) _
    · rw [hmin, foldl_expandBounds_fst_z]
      exact foldl_min_le_of_mem (List.mem_map_of_mem Vec3.z hvm) _
    · rw [hmax, foldl_expandBounds_snd_x]
      exact le_foldl_max_of_mem (List.mem_map_of_mem Vec3.x hvm) _
    · rw [hmax, foldl_expandBounds_snd_y]
      exact le_foldl_max_of_mem (List.mem_map_of_mem Vec3.y hvm) _
    · rw [hmax, foldl_expandBounds_snd_z]
      exact le_foldl_max_of_mem (List.mem_map_of_mem Vec3.z hvm) _
  · rw [hmin, foldl_expandBounds_fst_x]
    rcases foldl_min_attained ((meshAllVertices (t0 :: ts)).map Vec3.x) t0.v0.x with hc | hc
    · exact ⟨t0, ht0, t0.v0, hv00, hc.symm⟩
    · obtain ⟨v1, hv1, hvx⟩ := List.mem_map.mp hc
      obtain ⟨t1, ht1, hvt1⟩ := mem_meshAllVertices.mp hv1
      exact ⟨t1, htri ▸ ht1, v1, hvt1, hvx⟩
  · rw [hmin, foldl_expandBounds_fst_y]
    rcases foldl_min_attained ((meshAllVertices (t0 :: ts)).map Vec3.y) t0.v0.y with hc | hc
    · exact ⟨t0, ht0, t0.v0, hv00, hc.symm⟩
    · obtain ⟨v1, hv1, hvx⟩ := List.mem_map.mp hc
      obtain ⟨t1, ht1, hvt1⟩ := mem_meshAllVertices.mp hv1
      exact ⟨t1, htri ▸ ht1, v1, hvt1, hvx⟩
  · rw [hmin, foldl_expandBounds_fst_z]
    rcases foldl_min_attained ((meshAllVertices (t0 :: ts)).map Vec3.z) t0.v0.z with hc | hc
    · exact ⟨t0, ht0, t0.v0, hv00, hc.symm⟩
    · obtain ⟨v1, hv1, hvx⟩ := List.mem_map.mp hc
      obtain ⟨t1, ht1, hvt1⟩ := mem_meshAllVertices.mp hv1
      exact ⟨t1, htri ▸ ht1, v1, hvt1, hvx⟩
  · rw [hmax, foldl_expandBounds_snd_x]
    rcases foldl_max_attained ((meshAllVertices (t0 :: ts)).map Vec3.x) t0.v0.x with hc | hc
    · exact ⟨t0, ht0, t0.v0, hv00, hc.symm⟩
    · obtain ⟨v1, hv1, hvx⟩ := List.mem_map.mp hc
      obtain ⟨t1, ht1, hvt1⟩ := mem_meshAllVertices.mp hv1
      exact ⟨t1, htri ▸ ht1, v1, hvt1, hvx⟩
  · rw [hmax, foldl_expandBounds_snd_y]
    rcases foldl_max_attained ((meshAllVertices (t0 :: ts)).map Vec3.y) t0.v0.y with hc | hc
    · exact ⟨t0, ht0, t0.v0, hv00, hc.symm⟩
    · obtain ⟨v1, hv1, hvx⟩ := List.mem_map.mp hc
      obtain ⟨t1, ht1, hvt1⟩ := mem_meshAllVertices.mp hv1
      exact ⟨t1, htri ▸ ht1, v1, hvt1, hvx⟩
  · rw [hmax, foldl_expandBounds_snd_z]
    rcases foldl_max_attained ((meshAllVertices (t0 :: ts)).map Vec3.z) t0.v0.z with hc | hc
    · exact ⟨t0, ht0, t0.v0, hv00, hc.symm⟩
    · obtain ⟨v1, hv1, hvx⟩ := List.mem_map.mp hc
      obtain ⟨t1, ht1, hvt1⟩ := mem_meshAllVertices.mp hv1
      exact ⟨t1, htri ▸ ht1, v1, hvt1, hvx⟩
  · rw [hctr]
    refine ⟨?_, ?_, ?_⟩ <;> simp [smul, vadd, CENTER_CALCULATION_FACTOR] <;> ring

/-- Witness for C3 at a concrete one-triangle mesh. -/
theorem c3_witness :
    sampleBaseMesh.triangles ≠ [] ∧ boundsCenterSpec (normalizeMesh sampleBaseMesh) :=
  ⟨by decide, c3_bounds_extrema_center sampleBaseMesh (by decide)⟩

/-- C4: after normalization the scale is positive; when the largest
bounding-box dimension exceeds `1e-6` the scale is its reciprocal, and
when it is below `1e-6` the scale is `1.0`. -/
theorem c4_scale_policy (m : ModelMesh) (h : m.triangles ≠ []) :
    0 < (normalizeMesh m).scale ∧
    (EPSILON < maxDimension (normalizeMesh m) →
      (normalizeMesh m).scale = 1 / maxDimension (normalizeMesh m)) ∧
    (maxDimension (normalizeMesh m) < EPSILON → (normalizeMesh m).scale = 1) := by
  have hb2 : (calculateBounds m).triangles ≠ [] := by
    rw [calculateBounds_triangles]; exact h
  have hmd : maxDimension (normalizeMesh m) = maxDimension (calculateBounds m) := by
    rw [normalizeMesh, maxDimension_calculateCenterAndScale]
  have hs : (normalizeMesh m).scale =
      if EPSILON < maxDimension (calculateBounds m) then
        DEFAULT_SCALE / maxDimension (calculateBounds m)
      else DEFAULT_SCALE := by
    rw [normalizeMesh, calculateCenterAndScale_scale _ hb2]
  have heps : (0 : ℚ) < EPSILON := by norm_num [EPSILON]
  rw [hmd, hs]
  by_cases hc : EPSILON < maxDimension (calculateBounds m)
  · have hdpos : (0 : ℚ) < maxDimension (calculateBounds m) := lt_trans heps hc
    have hds : DEFAULT_SCALE / maxDimension (calculateBounds m) =
        1 / maxDimension (calculateBounds m) := by norm_num [DEFAULT_SCALE]
    rw [if_pos hc, hds]
    exact ⟨one_div_pos.mpr hdpos, fun _ => rfl,
      fun hlt => absurd (lt_trans hlt hc) (lt_irrefl _)⟩
  · rw [if_neg hc]
    exact ⟨by norm_num [DEFAULT_SCALE], fun hgt => absurd hgt hc,
      fun _ => by norm_num [DEFAULT_SCALE]⟩

/-- Witness for C4 at a concrete one-triangle mesh (largest dimension 1). -/
theorem c4_witness :
    sampleBaseMesh.triangles ≠ [] ∧
    (0 < (normalizeMesh sampleBaseMesh).scale ∧
     (EPSILON < maxDimension (normalizeMesh sampleBaseMesh) →
       (normalizeMesh sampleBaseMesh).scale = 1 / maxDimension (normalizeMesh sampleBaseMesh)) ∧
     (maxDimension (normalizeMesh sampleBaseMesh) < EPSILON →
       (normalizeMesh sampleBaseMesh).scale = 1)) :=
  ⟨by decide, c4_scale_policy sampleBaseMesh (by decide)⟩

/-- C9: normalization is idempotent — recomputing bounds, center and
scale over unchanged triangle data yields the same derived fields. -/
theorem c9_normalize_idempotent (m : ModelMesh) (h : m.triangles ≠ []) :
    normalizeMesh (normalizeMesh m) = normalizeMesh m := by
  obtain ⟨t0, ts, htr⟩ := List.exists_cons_of_ne_nil h
  cases m with
  | mk tr mn mx c s =>
    simp only at htr
    subst htr
    simp [normalizeMesh, calculateBounds, calculateCenterAndScale, boundsInit,
      maxDimension, vsub]

/-- Witness for C9 at a concrete one-triangle mesh. -/
theorem c9_witness :
    sampleBaseMesh.triangles ≠ [] ∧
    normalizeMesh (normalizeMesh sampleBaseMesh) = normalizeMesh sampleBaseMesh :=
  ⟨by decide, c9_normalize_idempotent sampleBaseMesh (by decide)⟩

lemma trianglesVertexData_length (l : List ModelTriangle) :
    (trianglesVertexData l).length = 27 * l.length := by
  induction l with
  | nil => rfl
  | cons t ts ih =>
    simp only [trianglesVertexData, List.length_append, List.length_cons, ih]
    have h27 : (triangleVertexData t).length = 27 := rfl
    rw [h27]
    ring

lemma trianglesVertexData_drop (l : List ModelTriangle) (j : ℕ) :
    (trianglesVertexData l).drop (27 * j) = trianglesVertexData (l.drop j) := by
  induction j generalizing l with
  | zero => simp
  | succ k ih =>
    cases l with
    | nil => simp [trianglesVertexData]
    | cons t ts =>
      rw [List.drop_succ_cons]
      have h1 : 27 * (k + 1) = 27 + 27 * k := by ring
      have h2 : (triangleVertexData t).length = 27 := rfl
      have hdl : (triangleVertexData t ++ trianglesVertexData ts).drop 27 =
          trianglesVertexData ts := by
        rw [← h2, List.drop_left]
      rw [show trianglesVertexData (t :: ts) =
            triangleVertexData t ++ trianglesVertexData ts from rfl,
        h1, ← List.drop_drop (27 * k) 27 (triangleVertexData t ++ trianglesVertexData ts),
        hdl]
      exact ih ts

/-- C7: the model vertex buffer has exactly 27 floats per triangle; block
`j` of 27 floats is exactly triangle `j`'s data; and for a one-triangle
mesh the 27 floats interleave position, the constant model color and the
triangle's normal per vertex, the normal occupying float ranges
`[6:9)`, `[15:18)` and `[24:27)`. -/
theorem c7_vertex_buffer_layout :
    (∀ mesh : ModelMesh, (convertSTLToVertices mesh).length = 27 * mesh.triangles.length) ∧
    (∀ mesh : ModelMesh, ∀ j : ℕ,
      (convertSTLToVertices mesh).drop (27 * j) = trianglesVertexData (mesh.triangles.drop j)) ∧
    (∀ t : ModelTriangle, ∀ mn mx c : Vec3, ∀ s : ℚ,
      (convertSTLToVertices ⟨[t], mn, mx, c, s⟩).length = 27 ∧
      (convertSTLToVertices ⟨[t], mn, mx, c, s⟩).take 3 = [t.v0.x, t.v0.y, t.v0.z] ∧
      ((convertSTLToVertices ⟨[t], mn, mx, c, s⟩).drop 3).take 3 =
        [modelColorR, modelColorG, modelColorB] ∧
      ((convertSTLToVertices ⟨[t], mn, mx, c, s⟩).drop 6).take 3 =
        [t.normal.x, t.normal.y, t.normal.z] ∧
      ((convertSTLToVertices ⟨[t], mn, mx, c, s⟩).drop 9).take 3 = [t.v1.x, t.v1.y, t.v1.z] ∧
      ((convertSTLToVertices ⟨[t], mn, mx, c, s⟩).drop 12).take 3 =
        [modelColorR, modelColorG, modelColorB] ∧
      ((convertSTLToVertices ⟨[t], mn, mx, c, s⟩).drop 15).take 3 =
        [t.normal.x, t.normal.y, t.normal.z] ∧
      ((convertSTLToVertices ⟨[t], mn, mx, c, s⟩).drop 18).take 3 = [t.v2.x, t.v2.y, t.v2.z] ∧
      ((convertSTLToVertices ⟨[t], mn, mx, c, s⟩).drop 21).take 3 =
        [modelColorR, modelColorG, modelColorB] ∧
      ((convertSTLToVertices ⟨[t], mn, mx, c, s⟩).drop 24).take 3 =
        [t.normal.x, t.normal.y, t.normal.z]) := by
  refine ⟨?_, ?_, ?_⟩
  · intro mesh
    exact trianglesVertexData_length mesh.triangles
  · intro mesh j
    exact trianglesVertexData_drop mesh.triangles j
  · intro t mn mx c s
    exact ⟨rfl, rfl, rfl, rfl, rfl, rfl, rfl, rfl, rfl, rfl⟩

/-- C8 counterexample: the X-axis segment of the axes buffer ends at
`(2,0,0)` (floats 9..11), a vector of squared length 4, so the segments
are not unit-length as claimed. -/
theorem c8_axes_not_unit_length :
    (createAxesVertices.drop 9).take 3 = [(2 : ℚ), 0, 0] ∧
    dotQ ⟨2, 0, 0⟩ ⟨2, 0, 0⟩ ≠ 1 :=
  ⟨rfl, by norm_num [dotQ]⟩

/-- C8 (amended): the axes buffer always holds exactly 3 fixed mutually
orthogonal axis segments of length `AXIS_LENGTH = 2`: origin to
`+X` colored red, origin to `+Y` colored green, origin to `+Z` colored
blue, 9 floats per vertex. -/
theorem c8_axes_buffer_structure :
    createAxesVertices.length = 54 ∧
    createAxesVertices.take 3 = [0, 0, 0] ∧
    (createAxesVertices.drop 3).take 3 = [1, 0, 0] ∧
    (createAxesVertices.drop 9).take 3 = [AXIS_LENGTH, 0, 0] ∧
    (createAxesVertices.drop 12).take 3 = [1, 0, 0] ∧
    (createAxesVertices.drop 18).take 3 = [0, 0, 0] ∧
    (createAxesVertices.drop 21).take 3 = [0, 1, 0] ∧
    (createAxesVertices.drop 27).take 3 = [0, AXIS_LENGTH, 0] ∧
    (createAxesVertices.drop 30).take 3 = [0, 1, 0] ∧
    (createAxesVertices.drop 36).take 3 = [0, 0, 0] ∧
    (createAxesVertices.drop 39).take 3 = [0, 0, 1] ∧
    (createAxesVertices.drop 45).take 3 = [0, 0, AXIS_LENGTH] ∧
    (createAxesVertices.drop 48).take 3 = [0, 0, 1] ∧
    dotQ ⟨AXIS_LENGTH, 0, 0⟩ ⟨0, AXIS_LENGTH, 0⟩ = 0 ∧
    dotQ ⟨AXIS_LENGTH, 0, 0⟩ ⟨0, 0, AXIS_LENGTH⟩ = 0 ∧
    dotQ ⟨0, AXIS_LENGTH, 0⟩ ⟨0, 0, AXIS_LENGTH⟩ = 0 := by
  refine ⟨rfl, rfl, rfl, rfl, rfl, rfl, rfl, rfl, rfl, rfl, rfl, rfl, rfl, ?_, ?_, ?_⟩ <;>
    norm_num [dotQ, AXIS_LENGTH]

/-- C1 (code bug): for the off-center mesh (bbox `[0,3]^3`, center
`(1.5,1.5,1.5)`, viewer scale `1/2`), the code's model matrix sends the
bounding-box center to `(3/8,3/8,3/8)` and the origin vertex to
`(-3/8,-3/8,-3/8)`, while the claimed map `v ↦ (v - center) * scale`
sends them to the origin and `(-3/4,-3/4,-3/4)`: glm right-multiplies,
so the code applies the translation before the scale. -/
theorem c1_model_matrix_divergence :
    applyToPoint (updateModelMatrix offCenterMesh) offCenterMesh.center =
      ⟨3 / 8, 3 / 8, 3 / 8⟩ ∧
    specModelMap offCenterMesh.center (viewerScale offCenterMesh) offCenterMesh.center =
      ⟨0, 0, 0⟩ ∧
    applyToPoint (updateModelMatrix offCenterMesh) ⟨0, 0, 0⟩ =
      ⟨-3 / 8, -3 / 8, -3 / 8⟩ ∧
    specModelMap offCenterMesh.center (viewerScale offCenterMesh) ⟨0, 0, 0⟩ =
      ⟨-3 / 4, -3 / 4, -3 / 4⟩ ∧
    applyToPoint (updateModelMatrix offCenterMesh) ⟨0, 0, 0⟩ ≠
      specModelMap offCenterMesh.center (viewerScale offCenterMesh) ⟨0, 0, 0⟩ := by
  have hm : offCenterMesh =
      ⟨[offCenterTriangle], ⟨0, 0, 0⟩, ⟨3, 3, 3⟩, ⟨3 / 2, 3 / 2, 3 / 2⟩, 1 / 3⟩ := by
    norm_num [offCenterMesh, offCenterTriangle, normalizeMesh, calculateBounds,
      calculateCenterAndScale, boundsInit, meshAllVertices, triVerts, expandBounds,
      maxDimension, vsub, vadd, smul, CENTER_CALCULATION_FACTOR, DEFAULT_SCALE, EPSILON,
      min_def, max_def, List.foldl_cons, List.foldl_nil]
  rw [hm]
  refine ⟨?_, ?_, ?_, ?_, ?_⟩ <;>
    norm_num [applyToPoint, updateModelMatrix, glmTranslate, glmScale, mat4Identity,
      v4add, v4smul, viewerScale, maxDimension, vsub, vadd, smul, vneg, specModelMap,
      MODEL_DESIRED_SIZE, min_def, max_def, Vec3.mk.injEq]

/-- C5 counterexample: for the normalized zero-extent mesh the largest
dimension is 0, the normalizer's policy sets `mesh.scale = 1`, but the
per-frame viewer scale divides `MODEL_DESIRED_SIZE` by that zero
dimension (IEEE float: `+inf`; rational embedding: division by zero) and
is not the policy value `1.0`. -/
theorem c5_degenerate_scale_divergence :
    maxDimension degenerateMesh = 0 ∧
    degenerateMesh.scale = 1 ∧
    viewerScale degenerateMesh = MODEL_DESIRED_SIZE / 0 ∧
    viewerScale degenerateMesh ≠ degenerateMesh.scale := by
  have hm : degenerateMesh =
      ⟨[degenerateTriangle], ⟨5, 5, 5⟩, ⟨5, 5, 5⟩, ⟨5, 5, 5⟩, 1⟩ := by
    norm_num [degenerateMesh, degenerateBaseMesh, degenerateTriangle, normalizeMesh,
      calculateBounds, calculateCenterAndScale, boundsInit, meshAllVertices, triVerts,
      expandBounds, maxDimension, vsub, vadd, smul, CENTER_CALCULATION_FACTOR,
      DEFAULT_SCALE, EPSILON, min_def, max_def, List.foldl_cons, List.foldl_nil]
  rw [hm]
  refine ⟨?_, ?_, ?_, ?_⟩ <;>
    norm_num [viewerScale, maxDimension, vsub, MODEL_DESIRED_SIZE, min_def, max_def]

/-- C5 (amended): the normalizer's scale is positive and defaults to 1.0
at or below epsilon extent, but the viewer's per-frame scale is derived
by unguarded division and disagrees with the policy value on zero-extent
meshes. -/
theorem c5_scale_policy_scope (m : ModelMesh) (h : m.triangles ≠ []) :
    0 < (normalizeMesh m).scale ∧
    (maxDimension (normalizeMesh m) ≤ EPSILON → (normalizeMesh m).scale = 1) ∧
    (maxDimension (normalizeMesh m) = 0 →
      viewerScale (normalizeMesh m) ≠ (normalizeMesh m).scale) := by
  have hb2 : (calculateBounds m).triangles ≠ [] := by
    rw [calculateBounds_triangles]; exact h
  have hmd : maxDimension (normalizeMesh m) = maxDimension (calculateBounds m) := by
    rw [normalizeMesh, maxDimension_calculateCenterAndScale]
  have hs : (normalizeMesh m).scale =
      if EPSILON < maxDimension (calculateBounds m) then
        DEFAULT_SCALE / maxDimension (calculateBounds m)
      else DEFAULT_SCALE := by
    rw [normalizeMesh, calculateCenterAndScale_scale _ hb2]
  have heps : (0 : ℚ) < EPSILON := by norm_num [EPSILON]
  have hone : ∀ hle : maxDimension (normalizeMesh m) ≤ EPSILON, (normalizeMesh m).scale = 1 := by
    intro hle
    rw [hmd] at hle
    rw [hs, if_neg (not_lt.mpr hle)]
    norm_num [DEFAULT_SCALE]
  refine ⟨?_, hone, ?_⟩
  · rw [hs]
    by_cases hc : EPSILON < maxDimension (calculateBounds m)
    · have hdpos : (0 : ℚ) < maxDimension (calculateBounds m) := lt_trans heps hc
      rw [if_pos hc]
      have hds : DEFAULT_SCALE / maxDimension (calculateBounds m) =
          1 / maxDimension (calculateBounds m) := by norm_num [DEFAULT_SCALE]
      rw [hds]
      exact one_div_pos.mpr hdpos
    · rw [if_neg hc]
      norm_num [DEFAULT_SCALE]
  · intro h0
    have h1 : (normalizeMesh m).scale = 1 := hone (by rw [h0]; exact le_of_lt heps)
    have h2 : viewerScale (normalizeMesh m) = 0 := by
      rw [viewerScale, h0, div_zero]
    rw [h1, h2]
    norm_num

/-- Witness for the amended C5 at the concrete zero-extent mesh. -/
theorem c5_witness :
    degenerateBaseMesh.triangles ≠ [] ∧
    (0 < (normalizeMesh degenerateBaseMesh).scale ∧
     (maxDimension (normalizeMesh degenerateBaseMesh) ≤ EPSILON →
       (normalizeMesh degenerateBaseMesh).scale = 1) ∧
     (maxDimension (normalizeMesh degenerateBaseMesh) = 0 →
       viewerScale (normalizeMesh degenerateBaseMesh) ≠
         (normalizeMesh degenerateBaseMesh).scale)) :=
  ⟨by decide, c5_scale_policy_scope degenerateBaseMesh (by decide)⟩

lemma processFaces_ok_err (sf : ℚ → ℚ) (am : AiMesh) :
    ∀ (fs : List (List ℕ)) (mesh : ModelMesh) (err : String),
      (processFaces sf am fs mesh err).1 = true →
      (processFaces sf am fs mesh err).2.2 = err := by
  intro fs
  induction fs with
  | nil => intro mesh err _; rfl
  | cons f fs ih =>
    intro mesh err h
    by_cases hf : f.length = 3
    · cases hct : createTriangle sf f am with
      | ok tri =>
        simp only [processFaces, hf, if_true, hct] at h ⊢
        exact ih _ err h
      | error e => simp [processFaces, hf, hct] at h
    · simp only [processFaces, hf, if_false] at h ⊢
      exact ih mesh err h

lemma processMesh_ok_err (sf : ℚ → ℚ) (am : AiMesh) (mesh : ModelMesh) (err : String)
    (h : (processMesh sf am mesh err).1 = true) :
    (processMesh sf am mesh err).2.2 = err := by
  by_cases h1 : am.faces = []
  · simp [processMesh, h1] at h
  · by_cases h2 : am.vertices = []
    · simp [processMesh, h1, h2] at h
    · simp only [processMesh, h1, h2, if_false] at h ⊢
      exact processFaces_ok_err sf am am.faces mesh err h

lemma processScene_ok_err (sf : ℚ → ℚ) :
    ∀ (ms : List AiMesh) (mesh : ModelMesh) (err : String),
      (processScene sf ms mesh err).1 = true →
      (processScene sf ms mesh err).2.2 = err := by
  intro ms
  induction ms with
  | nil => intro mesh err _; rfl
  | cons am rest ih =>
    intro mesh err h
    rcases hpm : processMesh sf am mesh err with ⟨ok1, m1, e1⟩
    cases ok1 with
    | false => simp [processScene, hpm] at h
    | true =>
      have he1 : e1 = err := by
        have := processMesh_ok_err sf am mesh err (by rw [hpm])
        rwa [hpm] at this
      simp only [processScene, hpm] at h ⊢
      rw [ih m1 e1 h, he1]

/-- C10: whenever `loadFile` returns success, the stored error message is
empty — the message is cleared on entry, so success after an earlier
failed call never exposes a stale error. -/
theorem c10_error_cleared_on_success (sf : ℚ → ℚ) (readResult : Except String AiScene)
    (prevError : String) (m0 : ModelMesh)
    (h : (loadFile sf readResult prevError m0).ok = true) :
    getErrorMessage (loadFile sf readResult prevError m0) = "" := by
  cases readResult with
  | error e => simp [loadFile] at h
  | ok scene =>
    by_cases hms : scene.meshes = []
    · simp [loadFile, hms] at h
    · rcases hps : processScene sf scene.meshes m0 "" with ⟨ok1, m1, e1⟩
      cases ok1 with
      | false => simp [loadFile, hms, hps] at h
      | true =>
        by_cases hm1 : m1.triangles = []
        · simp [loadFile, hms, hps, hm1] at h
        · have he1 : e1 = "" := by
            have := processScene_ok_err sf scene.meshes m0 "" (by rw [hps])
            rwa [hps] at this
          simp [getErrorMessage, loadFile, hms, hps, hm1, he1]

/-- Witness for C10: a successful load after a stale prior error. -/
theorem c10_witness :
    (loadFile id (Except.ok goodScene) "stale error from an earlier failed call" freshMesh).ok =
      true ∧
    getErrorMessage
      (loadFile id (Except.ok goodScene) "stale error from an earlier failed call" freshMesh) =
      "" :=
  ⟨rfl, c10_error_cleared_on_success id (Except.ok goodScene)
    "stale error from an earlier failed call" freshMesh rfl⟩

/-- C6: a load can only succeed with a non-empty triangle list; a scene
with no meshes, or whose meshes carry zero faces, always fails with the
corresponding empty-data error message. -/
theorem c6_empty_scene_rejected :
    (∀ (sf : ℚ → ℚ) (readResult : Except String AiScene) (prevError : String)
        (m0 : ModelMesh),
      (loadFile sf readResult prevError m0).ok = true →
      (loadFile sf readResult prevError m0).mesh.triangles ≠ []) ∧
    (∀ (sf : ℚ → ℚ) (scene : AiScene) (prevError : String) (m0 : ModelMesh),
      m0.triangles = [] →
      (scene.meshes = [] ∨ ∀ am ∈ scene.meshes, am.faces = []) →
      (loadFile sf (Except.ok scene) prevError m0).ok = false ∧
      ((loadFile sf (Except.ok scene) prevError m0).errorMessage =
          "No mesh data found in the file: File might be empty or corrupted" ∨
        (loadFile sf (Except.ok scene) prevError m0).errorMessage =
          "Mesh does not contain face data: Mesh index: 0")) := by
  constructor
  · intro sf readResult prevError m0 h
    cases readResult with
    | error e => simp [loadFile] at h
    | ok scene =>
      by_cases hms : scene.meshes = []
      · simp [loadFile, hms] at h
      · rcases hps : processScene sf scene.meshes m0 "" with ⟨ok1, m1, e1⟩
        cases ok1 with
        | false => simp [loadFile, hms, hps] at h
        | true =>
          by_cases hm1 : m1.triangles = []
          · simp [loadFile, hms, hps, hm1] at h
          · simp only [loadFile, hms, hps, hm1, if_false, if_neg]
            rw [calculateCenterAndScale_triangles, calculateBounds_triangles]
            exact hm1
  · intro sf scene prevError m0 h0 hsc
    rcases scene with ⟨ms⟩
    cases ms with
    | nil => exact ⟨rfl, Or.inl rfl⟩
    | cons am rest =>
      have hfaces : am.faces = [] := by
        rcases hsc with h | h
        · exact absurd h (List.cons_ne_nil am rest)
        · exact h am (List.mem_cons_self am rest)
      have hlen0 : m0.triangles.length = 0 := by rw [h0]; rfl
      constructor
      · simp [loadFile, processScene, processMesh, hfaces]
      · right
        simp only [loadFile, processScene, processMesh, hfaces, if_true, hlen0]
        rfl

/-- Witness for C6 at the concrete faceless scene. -/
theorem c6_witness :
    freshMesh.triangles = [] ∧
    (facelessScene.meshes = [] ∨ ∀ am ∈ facelessScene.meshes, am.faces = []) ∧
    ((loadFile id (Except.ok facelessScene) "prev" freshMesh).ok = false ∧
     ((loadFile id (Except.ok facelessScene) "prev" freshMesh).errorMessage =
        "No mesh data found in the file: File might be empty or corrupted" ∨
      (loadFile id (Except.ok facelessScene) "prev" freshMesh).errorMessage =
        "Mesh does not contain face data: Mesh index: 0")) :=
  ⟨rfl, Or.inr (by intro am ham; simp [facelessScene] at ham; rw [ham]),
   c6_empty_scene_rejected.2 id facelessScene "prev" freshMesh rfl
     (Or.inr (by intro am ham; simp [facelessScene] at ham; rw [ham]))⟩

lemma createTriangle_ok_of_valid (sf : ℚ → ℚ) (am : AiMesh) {f : List ℕ}
    (h3 : f.length = 3) (hlt : ∀ i ∈ f, i < am.vertices.length) :
    ∃ tri, createTriangle sf f am = Except.ok tri := by
  obtain ⟨a, b, c, rfl⟩ := List.length_eq_three.mp h3
  have ha := hlt a (by simp)
  have hb := hlt b (by simp)
  have hc := hlt c (by simp)
  simp only [createTriangle]
  rw [if_pos ha, if_pos hb, if_pos hc]
  exact ⟨_, rfl⟩

lemma processFaces_valid_run (sf : ℚ → ℚ) (am : AiMesh) :
    ∀ (good fs : List (List ℕ)) (mesh : ModelMesh) (err : String),
      (∀ f ∈ good, f.length = 3 ∧ ∀ i ∈ f, i < am.vertices.length) →
      ∃ trs : List ModelTriangle, trs.length = good.length ∧
        processFaces sf am (good ++ fs) mesh err =
          processFaces sf am fs { mesh with triangles := mesh.triangles ++ trs } err := by
  intro good
  induction good with
  | nil =>
    intro fs mesh err _
    exact ⟨[], rfl, by rw [List.nil_append, List.append_nil]⟩
  | cons f good ih =>
    intro fs mesh err hval
    obtain ⟨h3, hlt⟩ := hval f (List.mem_cons_self f good)
    obtain ⟨tri, htri⟩ := createTriangle_ok_of_valid sf am h3 hlt
    obtain ⟨trs, hlen, heq⟩ :=
      ih fs { mesh with triangles := mesh.triangles ++ [tri] } err
        (fun g hg => hval g (List.mem_cons_of_mem f hg))
    refine ⟨tri :: trs, by simp [hlen], ?_⟩
    have hstep : processFaces sf am (f :: (good ++ fs)) mesh err =
        processFaces sf am (good ++ fs)
          { mesh with triangles := mesh.triangles ++ [tri] } err := by
      simp [processFaces, h3, htri]
    rw [List.cons_append, hstep, heq, List.append_assoc]
    rfl

lemma processFaces_first_bad (sf : ℚ → ℚ) (am : AiMesh) (i0 : ℕ) (r1 : List ℕ)
    (rest : List (List ℕ)) (mesh : ModelMesh) (err : String)
    (hge : am.vertices.length ≤ i0) (hr1 : r1.length = 2) :
    processFaces sf am ((i0 :: r1) :: rest) mesh err =
      (false, mesh,
        setErrorStr "Invalid vertex index in face data" ("Index: " ++ toString i0)) := by
  obtain ⟨a, b, rfl⟩ := List.length_eq_two.mp hr1
  have hct : createTriangle sf (i0 :: [a, b]) am =
      Except.error
        (setErrorStr "Invalid vertex index in face data" ("Index: " ++ toString i0)) := by
    simp [createTriangle, Nat.not_lt.mpr hge]
  simp [processFaces, hct]

/-- C2 (amended): a face with an out-of-range first index makes
`loadFile` fail with the invalid-index error, but the caller's mesh
keeps one triangle per valid face processed before the bad one — the
output is partially populated on failure. -/
theorem c2_invalid_index_keeps_earlier_triangles (sf : ℚ → ℚ) (prevError : String)
    (m0 : ModelMesh) (vs ns : List Vec3) (good : List (List ℕ)) (i0 : ℕ)
    (r1 : List ℕ) (rest : List (List ℕ))
    (h0 : m0.triangles = []) (hvs : vs ≠ [])
    (hgood : ∀ f ∈ good, f.length = 3 ∧ ∀ i ∈ f, i < vs.length)
    (hbad : vs.length ≤ i0) (hr1 : r1.length = 2) :
    (loadFile sf (Except.ok ⟨[⟨vs, ns, good ++ (i0 :: r1) :: rest⟩]⟩) prevError m0).ok =
      false ∧
    (loadFile sf (Except.ok ⟨[⟨vs, ns, good ++ (i0 :: r1) :: rest⟩]⟩)
        prevError m0).errorMessage =
      setErrorStr "Invalid vertex index in face data" ("Index: " ++ toString i0) ∧
    (loadFile sf (Except.ok ⟨[⟨vs, ns, good ++ (i0 :: r1) :: rest⟩]⟩)
        prevError m0).mesh.triangles.length = good.length := by
  obtain ⟨trs, hlen, heq⟩ :=
    processFaces_valid_run sf ⟨vs, ns, good ++ (i0 :: r1) :: rest⟩ good
      ((i0 :: r1) :: rest) m0 "" hgood
  have hbadf := processFaces_first_bad sf ⟨vs, ns, good ++ (i0 :: r1) :: rest⟩ i0 r1 rest
    { m0 with triangles := m0.triangles ++ trs } "" hbad hr1
  have hfaces : good ++ (i0 :: r1) :: rest ≠ ([] : List (List ℕ)) := by
    intro hcon
    rcases List.append_eq_nil.mp hcon with ⟨-, h2⟩
    exact List.cons_ne_nil _ _ h2
  have hpm : processMesh sf ⟨vs, ns, good ++ (i0 :: r1) :: rest⟩ m0 "" =
      (false, { m0 with triangles := m0.triangles ++ trs },
        setErrorStr "Invalid vertex index in face data" ("Index: " ++ toString i0)) := by
    unfold processMesh
    rw [if_neg hfaces, if_neg hvs, heq, hbadf]
  have hps : processScene sf [⟨vs, ns, good ++ (i0 :: r1) :: rest⟩] m0 "" =
      (false, { m0 with triangles := m0.triangles ++ trs },
        setErrorStr "Invalid vertex index in face data" ("Index: " ++ toString i0)) := by
    simp only [processScene, hpm]
  refine ⟨?_, ?_, ?_⟩
  · simp [loadFile, hps]
  · simp [loadFile, hps]
  · simp [loadFile, hps, h0, hlen]

/-- C2 counterexample: the concrete scene whose second face references
vertex index 5 fails with the invalid-index error, yet the caller's mesh
still holds the one triangle extracted from the first (valid) face —
refuting the claim that no earlier triangles remain visible. -/
theorem c2_partial_mesh_counterexample :
    (loadFile id (Except.ok badIndexScene) "" freshMesh).ok = false ∧
    (loadFile id (Except.ok badIndexScene) "" freshMesh).errorMessage =
      "Invalid vertex index in face data: Index: 5" ∧
    (loadFile id (Except.ok badIndexScene) "" freshMesh).mesh.triangles.length = 1 :=
  ⟨rfl, rfl, rfl⟩

/-- Witness for the amended C2 at the concrete bad-index scene. -/
theorem c2_witness :
    (loadFile id
        (Except.ok ⟨[⟨[⟨0, 0, 0⟩, ⟨1, 0, 0⟩, ⟨0, 1, 0⟩], [],
          [[0, 1, 2]] ++ (5 :: [0, 1]) :: []⟩]⟩) "" freshMesh).ok = false ∧
    (loadFile id
        (Except.ok ⟨[⟨[⟨0, 0, 0⟩, ⟨1, 0, 0⟩, ⟨0, 1, 0⟩], [],
          [[0, 1, 2]] ++ (5 :: [0, 1]) :: []⟩]⟩) "" freshMesh).errorMessage =
      setErrorStr "Invalid vertex index in face data" ("Index: " ++ toString 5) ∧
    (loadFile id
        (Except.ok ⟨[⟨[⟨0, 0, 0⟩, ⟨1, 0, 0⟩, ⟨0, 1, 0⟩], [],
          [[0, 1, 2]] ++ (5 :: [0, 1]) :: []⟩]⟩) "" freshMesh).mesh.triangles.length =
      ([[0, 1, 2]] : List (List ℕ)).length :=
  c2_invalid_index_keeps_earlier_triangles id "" freshMesh
    [⟨0, 0, 0⟩, ⟨1, 0, 0⟩, ⟨0, 1, 0⟩] [] [[0, 1, 2]] 5 [0, 1] []
    rfl (by decide) (by decide) (by decide) rfl
